import Mathlib

/-!
Shallow embedding of the real-time fan-out core of the go-server repository
(`src/internal/api/api.go`) together with the storage semantics of the SQL
queries in `src/unnamed/part_000`.

The hub state is the `subscribers` map of `apiHandler`
(`map[string]map[*websocket.Conn]context.CancelFunc`), modelled as an
association list from room id to the list of connections registered for that
room, plus the set of connections whose `context.CancelFunc` has been invoked.
Connections are identified by natural numbers (distinct `*websocket.Conn`
pointers); the success or failure of `conn.WriteJSON` is supplied by an oracle
`wf : Conn → Bool`.
-/

namespace GoServer

abbrev RoomID := String

abbrev Conn := Nat

/-- Message-kind constants, api.go lines 88-93 (including the source's
"Raction" spelling). -/
def MessageKindMessageCreated : String := "message_created"

def MessageKindMessageRactionIncreased : String := "message_reaction_increased"

def MessageKindMessageRactionDecreased : String := "message_reaction_decreased"

def MessageKindMessageAnswered : String := "message_answered"

/-- The four payload structs of api.go lines 96-113:
`MessageMessageCreated {ID, Message}`, `MessageMessageReactionIncreased
{ID, Count}`, `MessageMessageReactionDecreased {ID, Count}`,
`MessageMessageAnswered {ID}`. -/
inductive EventValue where
  | created (id message : String)
  | reactionIncreased (id : String) (count : Int)
  | reactionDecreased (id : String) (count : Int)
  | answered (id : String)
  deriving DecidableEq, Repr

/-- `Message` of api.go lines 115-119: `Kind`, `Value any`, and `RoomID`
carrying the json tag `"-"` (excluded from serialization). -/
structure Message where
  kind : String
  value : EventValue
  roomID : RoomID
  deriving DecidableEq, Repr

/-- The hub's shared state: the `subscribers` field of `apiHandler`
(room id → set of connections, api.go line 25) and the set of connections
whose cancel function has been called. -/
structure HubState where
  subscribers : List (RoomID × List Conn)
  cancelled : List Conn
  deriving DecidableEq, Repr

/-- Initial hub state built by `NewHandler` (api.go line 39):
`make(map[string]map[*websocket.Conn]context.CancelFunc)`. -/
def newHandlerState : HubState := ⟨[], []⟩

/-- Go map read `h.subscribers[room]`: `some` when the key is present. -/
def lookupRoom : List (RoomID × List Conn) → RoomID → Option (List Conn)
  | [], _ => none
  | (r', subs) :: rest, r => if r' = r then some subs else lookupRoom rest r

/-- The listener set of a room (absent key reads as the empty set). -/
def listenersOf (S : HubState) (r : RoomID) : List Conn :=
  (lookupRoom S.subscribers r).getD []

/-- api.go lines 158-162: if the room key is absent a fresh inner map is
created, then `h.subscribers[rawRoomID][c] = cancel` adds the connection
(re-adding an already present connection leaves the key set unchanged). -/
def insertConn : List (RoomID × List Conn) → RoomID → Conn → List (RoomID × List Conn)
  | [], r, c => [(r, [c])]
  | (r', subs) :: rest, r, c =>
    if r' = r then (r', if c ∈ subs then subs else subs ++ [c]) :: rest
    else (r', subs) :: insertConn rest r c

/-- api.go line 168: `delete(h.subscribers[rawRoomID], c)` removes only the
connection from the inner map; the room key itself is never deleted.
A `delete` on an absent room key is a no-op (Go `delete` on a nil map). -/
def deleteConn : List (RoomID × List Conn) → RoomID → Conn → List (RoomID × List Conn)
  | [], _, _ => []
  | (r', subs) :: rest, r, c =>
    if r' = r then (r', subs.erase c) :: rest
    else (r', subs) :: deleteConn rest r c

/-- The registration step of `handleSubscribe` (api.go lines 157-163),
performed under `h.mu`. -/
def handleSubscribeRegister (S : HubState) (room : RoomID) (c : Conn) : HubState :=
  { S with subscribers := insertConn S.subscribers room c }

/-- The cleanup step of `handleSubscribe` (api.go lines 167-169), run after
`<-ctx.Done()` fires, performed under `h.mu`. -/
def handleSubscribeCleanup (S : HubState) (room : RoomID) (c : Conn) : HubState :=
  { S with subscribers := deleteConn S.subscribers room c }

/-- The delivery loop of `notifyClients` (api.go lines 131-136): every
connection of the snapshot gets one `WriteJSON` attempt; on failure its
`cancel` function is invoked and the loop continues with the next
connection. Returns the updated cancelled set and the list of connections a
delivery attempt was made to. -/
def notifyFanout (cancelled : List Conn) (wf : Conn → Bool) :
    List Conn → List Conn × List Conn
  | [] => (cancelled, [])
  | c :: rest =>
    let cancelled' := if wf c then cancelled else cancelled ++ [c]
    let res := notifyFanout cancelled' wf rest
    (res.1, c :: res.2)

/-- `notifyClients` (api.go lines 122-137): look up the room of `msg.RoomID`;
if the key is absent or the set is empty, return at once; otherwise run the
delivery loop. The registry (`subscribers`) is never modified here — failure
only invokes the listener's cancel function. The second component is the
list of connections to which a delivery attempt was made. -/
def notifyClients (S : HubState) (msg : Message) (wf : Conn → Bool) :
    HubState × List Conn :=
  match lookupRoom S.subscribers msg.roomID with
  | none => (S, [])
  | some subs =>
    if subs.isEmpty then (S, [])
    else
      ({ S with cancelled := (notifyFanout S.cancelled wf subs).1 },
        (notifyFanout S.cancelled wf subs).2)

/-!
Action-trace view of the hub, used to reason about where the mutex `h.mu` is
held. Each `HubAction` is one atomic step of the Go code; a trace records the
steps of one hub operation in program order.
-/

/-- One atomic step taken by a hub operation. -/
inductive HubAction where
  | lock
  | unlock
  | readRegistry (room : RoomID)
  | write (c : Conn) (ok : Bool)
  | cancelCall (c : Conn)
  | addConn (room : RoomID) (c : Conn)
  | removeConn (room : RoomID) (c : Conn)
  deriving DecidableEq, Repr

/-- Trace of the delivery loop (api.go lines 131-136): a `WriteJSON` attempt
per connection, followed by a cancel call when the write failed. -/
def fanoutTrace (wf : Conn → Bool) : List Conn → List HubAction
  | [] => []
  | c :: rest =>
    (if wf c then [HubAction.write c true]
     else [HubAction.write c false, HubAction.cancelCall c]) ++ fanoutTrace wf rest

/-- The actions of `notifyClients` strictly between its `h.mu.Lock()` and the
deferred `h.mu.Unlock()`. -/
def notifyBody (S : HubState) (room : RoomID) (wf : Conn → Bool) : List HubAction :=
  HubAction.readRegistry room ::
    (match lookupRoom S.subscribers room with
     | none => []
     | some subs => if subs.isEmpty then [] else fanoutTrace wf subs)

/-- Full trace of `notifyClients` (api.go lines 122-137): `h.mu.Lock()` is the
first statement, `defer h.mu.Unlock()` runs last on every return path, and
everything else — the registry read, every `WriteJSON`, every cancel — happens
in between. -/
def notifyClientsTrace (S : HubState) (room : RoomID) (wf : Conn → Bool) :
    List HubAction :=
  HubAction.lock :: (notifyBody S room wf ++ [HubAction.unlock])

/-- Trace of the registration step of `handleSubscribe`
(api.go lines 157-163): mutate the registry between `Lock` and `Unlock`. -/
def subscribeRegisterTrace (room : RoomID) (c : Conn) : List HubAction :=
  [HubAction.lock, HubAction.addConn room c, HubAction.unlock]

/-- Trace of the cleanup step of `handleSubscribe` (api.go lines 167-169). -/
def subscribeCleanupTrace (room : RoomID) (c : Conn) : List HubAction :=
  [HubAction.lock, HubAction.removeConn room c, HubAction.unlock]

/-- The mutex is held just before position `i` of a trace: strictly more
`lock` than `unlock` steps have occurred among the first `i` actions. -/
def mutexHeldAt (tr : List HubAction) (i : Nat) : Prop :=
  (tr.take i).count HubAction.unlock < (tr.take i).count HubAction.lock

/-!
JSON serialization of the event messages, as produced by `conn.WriteJSON(msg)`
(encoding/json on the `Message` struct and the four payload structs).
-/

/-- A JSON value; objects keep their fields in Go struct-field order. -/
inductive Json where
  | str (s : String)
  | num (n : Int)
  | obj (fields : List (String × Json))

/-- encoding/json of the four payload structs (api.go lines 96-113), field
order as declared in the Go source. -/
def marshalValue : EventValue → Json
  | .created id message => .obj [("id", .str id), ("message", .str message)]
  | .reactionIncreased id count => .obj [("id", .str id), ("count", .num count)]
  | .reactionDecreased id count => .obj [("id", .str id), ("count", .num count)]
  | .answered id => .obj [("id", .str id)]

/-- encoding/json of `Message` (api.go lines 115-119): fields `kind` and
`value`; `RoomID` carries the tag `json:"-"` and is omitted. -/
def marshalMessage (m : Message) : Json :=
  Json.obj [("kind", Json.str m.kind), ("value", marshalValue m.value)]

/-- Modelled from the spec: the published event shape of section 6 —
`{kind, value}` with kind one of the four kind strings and value
`{id, message}` / `{id, count}` / `{id}` according to the kind, the room
identifier appearing nowhere. Used only to compare the source's
serialization against the spec. -/
def specEventShape : Json → Bool
  | .obj [("kind", .str k), ("value", v)] =>
    (k == MessageKindMessageCreated &&
      (match v with
       | .obj [("id", .str _), ("message", .str _)] => true
       | _ => false)) ||
    ((k == MessageKindMessageRactionIncreased ||
      k == MessageKindMessageRactionDecreased) &&
      (match v with
       | .obj [("id", .str _), ("count", .num _)] => true
       | _ => false)) ||
    (k == MessageKindMessageAnswered &&
      (match v with
       | .obj [("id", .str _)] => true
       | _ => false))
  | _ => false

/-- Shape check lifted to a handler's optional published event. -/
def publishShapeOK : Option Message → Bool
  | none => true
  | some m => specEventShape (marshalMessage m)

/-!
The four mutating HTTP handlers (api.go lines 224-261, 314-349, 352-387,
389-420). Each is modelled as a pure function of the results of its fallible
collaborators, in the order the Go code consults them: the `readRoom` outcome
(`none` when `readRoom` reported and the handler returned early), the request
decoding/parsing outcome, and the storage call's result. The returned pair is
the HTTP response written and the event handed to `go h.notifyClients(...)`
(`none` when `notifyClients` is not invoked on that path).
-/

/-- The response a handler writes. -/
inductive Response where
  | earlyExit
  | badRequest (msg : String)
  | serverError (msg : String)
  | okJSON (body : Json)
  | okStatus

/-- `handleCreateRoomMessage` (api.go lines 224-261): decode body, call
`InsertMessage`; on storage error report 500 and stop; on success answer with
the new id and publish a `message_created` event. -/
def handleCreateRoomMessage (roomRead : Option RoomID) (bodyDecode : Option String)
    (insertResult : Except Unit String) : Response × Option Message :=
  match roomRead with
  | none => (.earlyExit, none)
  | some rawRoomID =>
    match bodyDecode with
    | none => (.badRequest "invalid json", none)
    | some msgText =>
      match insertResult with
      | .error _ => (.serverError "something went wrong", none)
      | .ok messageID =>
        (.okJSON (Json.obj [("id", .str messageID)]),
          some ⟨MessageKindMessageCreated, .created messageID msgText, rawRoomID⟩)

/-- `handleReactToMessage` (api.go lines 314-349): parse the message id, call
`ReactToMessage`; on storage error report 500 and stop; on success answer with
the new count and publish a `message_reaction_increased` event. -/
def handleReactToMessage (roomRead : Option RoomID) (rawID : String)
    (idValid : Bool) (reactResult : Except Unit Int) : Response × Option Message :=
  match roomRead with
  | none => (.earlyExit, none)
  | some rawRoomID =>
    if !idValid then (.badRequest "invalid message id", none)
    else
      match reactResult with
      | .error _ => (.serverError "something went wrong", none)
      | .ok count =>
        (.okJSON (Json.obj [("count", .num count)]),
          some ⟨MessageKindMessageRactionIncreased, .reactionIncreased rawID count, rawRoomID⟩)

/-- `handleRemoveReactFromMessage` (api.go lines 352-387): parse the message
id, call `RemoveReactionFromMessage`; on storage error report 500 and stop; on
success answer with the new count and publish a `message_reaction_decreased`
event. -/
def handleRemoveReactFromMessage (roomRead : Option RoomID) (rawID : String)
    (idValid : Bool) (removeResult : Except Unit Int) : Response × Option Message :=
  match roomRead with
  | none => (.earlyExit, none)
  | some rawRoomID =>
    if !idValid then (.badRequest "invalid message id", none)
    else
      match removeResult with
      | .error _ => (.serverError "something went wrong", none)
      | .ok count =>
        (.okJSON (Json.obj [("count", .num count)]),
          some ⟨MessageKindMessageRactionDecreased, .reactionDecreased rawID count, rawRoomID⟩)

/-- `handleMarkMessageAsAnswered` (api.go lines 389-420): parse the message
id, call `MarkMessageAsAnswered`; on storage error report 500 and stop;
otherwise write `http.StatusOK` and publish a `message_answered` event. The
code has no not-found branch. -/
def handleMarkMessageAsAnswered (roomRead : Option RoomID) (rawID : String)
    (idValid : Bool) (markResult : Except Unit Unit) : Response × Option Message :=
  match roomRead with
  | none => (.earlyExit, none)
  | some rawRoomID =>
    if !idValid then (.badRequest "invalid message id", none)
    else
      match markResult with
      | .error _ => (.serverError "something went wrong", none)
      | .ok _ =>
        (.okStatus,
          some ⟨MessageKindMessageAnswered, .answered rawID, rawRoomID⟩)

/-!
Storage semantics of `MarkMessageAsAnswered`, from the SQL in
`src/unnamed/part_000` lines 88-93.
-/

/-- A row of the `messages` table (columns as selected by `GetMessage`). -/
structure StoredMessage where
  id : String
  room_id : String
  message : String
  reaction_count : Int
  answered : Bool
  deriving DecidableEq, Repr

/-- `MarkMessageAsAnswered` (`src/unnamed/part_000` lines 88-93):
`UPDATE messages SET answered = true WHERE id = $1`, annotated `:exec` — the
query returns no value, and an UPDATE that matches zero rows is not an SQL
error, so absent a storage failure the call succeeds whether or not a row
with the given id exists. -/
def MarkMessageAsAnswered (db : List StoredMessage) (id : String) :
    Except Unit (List StoredMessage) :=
  .ok (db.map fun m => if m.id = id then { m with answered := true } else m)

/-- The `error`-only result the generated `:exec` wrapper hands back to
`handleMarkMessageAsAnswered` (api.go line 403). -/
def markMessageExecResult (db : List StoredMessage) (id : String) :
    Except Unit Unit :=
  match MarkMessageAsAnswered db id with
  | .ok _ => .ok ()
  | .error e => .error e

/-!
Concrete fixtures used by counterexamples and witnesses.
-/

/-- A write oracle on which every `WriteJSON` fails. -/
def wfFail : Conn → Bool := fun _ => false

/-- A write oracle on which every `WriteJSON` succeeds. -/
def wfOk : Conn → Bool := fun _ => true

/-- Hub with the single room `"r"` holding connection `0`. -/
def hubR : HubState := handleSubscribeRegister newHandlerState "r" 0

/-- Hub with connection `0` in room `"r1"` and connection `1` in room `"r2"`. -/
def hubTwo : HubState :=
  handleSubscribeRegister (handleSubscribeRegister newHandlerState "r1" 0) "r2" 1

/-- A concrete event scoped to room `"r"`. -/
def msgR : Message := ⟨MessageKindMessageCreated, .created "m" "hello", "r"⟩

/-- A concrete event scoped to room `"r1"`. -/
def msgR1 : Message := ⟨MessageKindMessageCreated, .created "m" "hello", "r1"⟩

/-- A one-row message store that does not contain message id `"m1"`. -/
def db0 : List StoredMessage := [⟨"m2", "room1", "hi", 0, false⟩]

/-!
Helper lemmas about the hub operations.
-/

/-- The delivery loop attempts exactly the snapshot, in order. -/
theorem notifyFanout_snd (wf : Conn → Bool) :
    ∀ (subs cancelled : List Conn), (notifyFanout cancelled wf subs).2 = subs := by
  intro subs
  induction subs with
  | nil => intro cancelled; rfl
  | cons c rest ih =>
    intro cancelled
    cases hw : wf c <;> simp [notifyFanout, hw, ih]

/-- The delivery loop appends exactly the failing connections to the
cancelled set. -/
theorem notifyFanout_fst (wf : Conn → Bool) :
    ∀ (subs cancelled : List Conn),
      (notifyFanout cancelled wf subs).1 =
        cancelled ++ subs.filter (fun c => !wf c) := by
  intro subs
  induction subs with
  | nil => intro cancelled; simp [notifyFanout]
  | cons c rest ih =>
    intro cancelled
    cases hw : wf c
    · simp [notifyFanout, hw, ih]
    · simp [notifyFanout, hw, ih]

/-- `notifyClients` on a room with no key or an empty listener set returns at
once with the state untouched and no delivery attempt. -/
theorem notifyClients_no_subscribers (S : HubState) (msg : Message)
    (wf : Conn → Bool)
    (h : lookupRoom S.subscribers msg.roomID = none ∨
         lookupRoom S.subscribers msg.roomID = some []) :
    notifyClients S msg wf = (S, []) := by
  unfold notifyClients
  rcases h with h | h
  · rw [h]
  · rw [h]; simp

/-- On a room whose key is present, `notifyClients` attempts delivery to
exactly the snapshot. -/
theorem notifyClients_attempts (S : HubState) (msg : Message) (wf : Conn → Bool)
    (subs : List Conn) (h : lookupRoom S.subscribers msg.roomID = some subs) :
    (notifyClients S msg wf).2 = subs := by
  unfold notifyClients
  rw [h]
  cases he : subs.isEmpty
  · simp [he, notifyFanout_snd]
  · simp [he, List.isEmpty_iff.mp he]

/-- Any connection attempted by `notifyClients` is in the published room's
listener set. -/
theorem mem_of_mem_attempts (S : HubState) (msg : Message) (wf : Conn → Bool)
    (c : Conn) (h : c ∈ (notifyClients S msg wf).2) :
    c ∈ listenersOf S msg.roomID := by
  unfold listenersOf
  cases hl : lookupRoom S.subscribers msg.roomID with
  | none =>
    rw [notifyClients_no_subscribers S msg wf (Or.inl hl)] at h
    simp at h
  | some subs =>
    rw [notifyClients_attempts S msg wf subs hl] at h
    simpa using h

/-- A found room entry is an entry of the registry list. -/
theorem lookupRoom_mem : ∀ (l : List (RoomID × List Conn)) (r : RoomID)
    (subs : List Conn), lookupRoom l r = some subs → (r, subs) ∈ l := by
  intro l
  induction l with
  | nil => intro r subs h; simp [lookupRoom] at h
  | cons p rest ih =>
    intro r subs h
    obtain ⟨r', subs'⟩ := p
    by_cases hr : r' = r
    · subst hr
      simp [lookupRoom] at h
      subst h
      exact List.mem_cons_self _ _
    · simp [lookupRoom, hr] at h
      exact List.mem_cons_of_mem _ (ih r subs h)

/-- `delete` erases the connection from the room's entry and from nothing
else; in particular the room key survives. -/
theorem lookupRoom_deleteConn : ∀ (l : List (RoomID × List Conn)) (r : RoomID)
    (c : Conn),
    lookupRoom (deleteConn l r c) r = (lookupRoom l r).map (fun subs => subs.erase c) := by
  intro l
  induction l with
  | nil => intro r c; rfl
  | cons p rest ih =>
    intro r c
    obtain ⟨r', subs⟩ := p
    by_cases hr : r' = r
    · subst hr; simp [deleteConn, lookupRoom]
    · simp [deleteConn, lookupRoom, hr, ih]

/-- Erasing a just-appended fresh element restores the list. -/
theorem erase_snoc (c : Conn) : ∀ (subs : List Conn), c ∉ subs →
    (subs ++ [c]).erase c = subs := by
  intro subs
  induction subs with
  | nil => intro; simp
  | cons a rest ih =>
    intro h
    have ha : a ≠ c := by
      rintro rfl; exact h (List.mem_cons_self _ _)
    have hr : c ∉ rest := fun hm => h (List.mem_cons_of_mem _ hm)
    simp [List.erase_cons, ha, ih hr]

/-- Register-then-unregister of a fresh connection on a room whose key is
present restores the registry list exactly. -/
theorem deleteConn_insertConn_of_some :
    ∀ (l : List (RoomID × List Conn)) (r : RoomID) (c : Conn)
      (subs : List Conn), lookupRoom l r = some subs → c ∉ subs →
      deleteConn (insertConn l r c) r c = l := by
  intro l
  induction l with
  | nil => intro r c subs h; simp [lookupRoom] at h
  | cons p rest ih =>
    intro r c subs h hc
    obtain ⟨r', subs'⟩ := p
    by_cases hr : r' = r
    · subst hr
      simp [lookupRoom] at h
      subst h
      simp [insertConn, deleteConn, if_neg (fun hm => hc hm), hc]
      exact erase_snoc c _ hc
    · simp [lookupRoom, hr] at h
      simp [insertConn, deleteConn, hr, ih r c subs h hc]

/-- Register-then-unregister on a room whose key is absent leaves the room
key behind, mapped to the empty set. -/
theorem deleteConn_insertConn_of_none :
    ∀ (l : List (RoomID × List Conn)) (r : RoomID) (c : Conn),
      lookupRoom l r = none →
      deleteConn (insertConn l r c) r c = l ++ [(r, [])] := by
  intro l
  induction l with
  | nil => intro r c _; simp [insertConn, deleteConn]
  | cons p rest ih =>
    intro r c h
    obtain ⟨r', subs'⟩ := p
    by_cases hr : r' = r
    · subst hr; simp [lookupRoom] at h
    · simp [lookupRoom, hr] at h
      simp [insertConn, deleteConn, hr, ih r c h]

/-- A lookup that misses the whole first list continues in the second. -/
theorem lookupRoom_append_of_none : ∀ (l l₂ : List (RoomID × List Conn))
    (r : RoomID), lookupRoom l r = none →
    lookupRoom (l ++ l₂) r = lookupRoom l₂ r := by
  intro l
  induction l with
  | nil => intro l₂ r _; rfl
  | cons p rest ih =>
    intro l₂ r h
    obtain ⟨r', subs'⟩ := p
    by_cases hr : r' = r
    · subst hr; simp [lookupRoom] at h
    · simp [lookupRoom, hr] at h
      simp [lookupRoom, hr, ih l₂ r h]

/-- The connection is registered in some room of the hub (the registry-side
reading of "L is registered to some room"). -/
def registeredAnywhere (S : HubState) (c : Conn) : Prop :=
  ∃ p ∈ S.subscribers, c ∈ p.2

instance (S : HubState) (c : Conn) : Decidable (registeredAnywhere S c) :=
  inferInstanceAs (Decidable (∃ p ∈ S.subscribers, c ∈ p.2))

/-- No mutex action occurs inside the delivery-loop trace. -/
theorem fanoutTrace_no_mutex (wf : Conn → Bool) : ∀ (subs : List Conn),
    HubAction.lock ∉ fanoutTrace wf subs ∧ HubAction.unlock ∉ fanoutTrace wf subs := by
  intro subs
  induction subs with
  | nil => simp [fanoutTrace]
  | cons c rest ih =>
    cases hw : wf c <;> simp [fanoutTrace, hw, ih.1, ih.2]

/-- No mutex action occurs in the body of `notifyClients` between its `Lock`
and its deferred `Unlock`. -/
theorem notifyBody_no_mutex (S : HubState) (room : RoomID) (wf : Conn → Bool) :
    HubAction.lock ∉ notifyBody S room wf ∧ HubAction.unlock ∉ notifyBody S room wf := by
  unfold notifyBody
  cases hl : lookupRoom S.subscribers room with
  | none => simp
  | some subs =>
    cases he : subs.isEmpty <;>
      simp [he, (fanoutTrace_no_mutex wf subs).1, (fanoutTrace_no_mutex wf subs).2]

/-!
Claim theorems.
-/

/-- Claim C1, counterexample to the claim as stated: with room `"r"` holding
the single listener `0` and every write failing, `Publish` completes with the
write to `0` failed, yet `0` is still in room `"r"`'s listener set in the
registry, and a later `Publish` to `"r"` again attempts delivery to `0`. -/
theorem c1_failed_write_listener_still_registered :
    wfFail 0 = false ∧
    0 ∈ listenersOf (notifyClients hubR msgR wfFail).1 "r" ∧
    0 ∈ (notifyClients (notifyClients hubR msgR wfFail).1 msgR wfFail).2 := by
  decide

/-- Claim C1, amended: after `Publish(R, e)` completes, for a listener whose
write failed, the listener's cancel function has been invoked, but the
registry is unchanged — the listener is removed only when its own
`handleSubscribe` task observes the cancellation and runs its cleanup, after
which it is no longer in the room's set. -/
theorem c1_failed_write_cancels_and_cleanup_removes (S : HubState)
    (msg : Message) (wf : Conn → Bool) (c : Conn) (subs : List Conn)
    (h : lookupRoom S.subscribers msg.roomID = some subs)
    (hc : c ∈ subs) (hn : subs.Nodup) (hw : wf c = false) :
    c ∈ (notifyClients S msg wf).1.cancelled ∧
    (notifyClients S msg wf).1.subscribers = S.subscribers ∧
    c ∉ listenersOf (handleSubscribeCleanup (notifyClients S msg wf).1 msg.roomID c)
        msg.roomID := by
  have hne : subs.isEmpty = false := by
    cases subs with
    | nil => cases hc
    | cons a rest => rfl
  have hstate : (notifyClients S msg wf).1 =
      { S with cancelled := (notifyFanout S.cancelled wf subs).1 } := by
    simp [notifyClients, h, hne]
  refine ⟨?_, ?_, ?_⟩
  · rw [hstate]
    simp only [notifyFanout_fst, List.mem_append, List.mem_filter]
    exact Or.inr ⟨hc, by rw [hw]; rfl⟩
  · rw [hstate]
  · rw [hstate]
    unfold handleSubscribeCleanup listenersOf
    simp only [lookupRoom_deleteConn, h, Option.map_some, Option.getD_some]
    exact hn.not_mem_erase

/-- Claim C1 witness: the amended theorem applied to the one-room fixture. -/
theorem c1_witness :
    lookupRoom hubR.subscribers msgR.roomID = some [0] ∧
    0 ∈ [0] ∧ ([0] : List Conn).Nodup ∧ wfFail 0 = false ∧
    (0 ∈ (notifyClients hubR msgR wfFail).1.cancelled ∧
     (notifyClients hubR msgR wfFail).1.subscribers = hubR.subscribers ∧
     0 ∉ listenersOf (handleSubscribeCleanup (notifyClients hubR msgR wfFail).1
          msgR.roomID 0) msgR.roomID) :=
  ⟨by decide, by decide, by decide, by decide,
    c1_failed_write_cancels_and_cleanup_removes hubR msgR wfFail 0 [0]
      (by decide) (by decide) (by decide) (by decide)⟩

/-- Claim C4, confirmed: publishing to a room whose key is absent, or whose
listener set is empty, returns without error, makes no delivery attempt, and
leaves the entire hub state unchanged. -/
theorem c4_publish_empty_room_noop (S : HubState) (msg : Message)
    (wf : Conn → Bool)
    (h : lookupRoom S.subscribers msg.roomID = none ∨
         lookupRoom S.subscribers msg.roomID = some []) :
    notifyClients S msg wf = (S, []) :=
  notifyClients_no_subscribers S msg wf h

/-- Claim C4 witness: publishing to the freshly initialized hub. -/
theorem c4_witness :
    (lookupRoom newHandlerState.subscribers msgR.roomID = none ∨
     lookupRoom newHandlerState.subscribers msgR.roomID = some []) ∧
    notifyClients newHandlerState msgR wfOk = (newHandlerState, []) :=
  ⟨Or.inl (by decide),
    c4_publish_empty_room_noop newHandlerState msgR wfOk (Or.inl (by decide))⟩

/-- Claim C6, confirmed: a connection not in the published room's listener
set — in particular one registered only to a different room — never has a
delivery attempted to it by `Publish`. -/
theorem c6_publish_targets_only_room_listeners (S : HubState) (msg : Message)
    (wf : Conn → Bool) (r2 : RoomID) (c : Conn)
    (_hne : r2 ≠ msg.roomID)
    (h1 : c ∉ listenersOf S msg.roomID)
    (_h2 : c ∈ listenersOf S r2) :
    c ∉ (notifyClients S msg wf).2 :=
  fun hc => h1 (mem_of_mem_attempts S msg wf c hc)

/-- Claim C6 witness: two rooms, the listener of `"r2"` is untouched by a
publish to `"r1"`. -/
theorem c6_witness :
    ("r2" : RoomID) ≠ msgR1.roomID ∧
    1 ∉ listenersOf hubTwo msgR1.roomID ∧
    1 ∈ listenersOf hubTwo "r2" ∧
    1 ∉ (notifyClients hubTwo msgR1 wfOk).2 :=
  ⟨by decide, by decide, by decide,
    c6_publish_targets_only_room_listeners hubTwo msgR1 wfOk "r2" 1
      (by decide) (by decide) (by decide)⟩

/-- Claim C9, confirmed: `Publish` makes exactly one delivery attempt per
listener of the snapshot — the attempt list is the snapshot itself, for every
write oracle, so a failed write never skips or aborts the remaining
listeners. -/
theorem c9_one_attempt_per_listener (S : HubState) (msg : Message)
    (wf : Conn → Bool) (subs : List Conn)
    (h : lookupRoom S.subscribers msg.roomID = some subs) :
    (notifyClients S msg wf).2 = subs ∧
    (subs.Nodup → ∀ c ∈ subs, ((notifyClients S msg wf).2).count c = 1) := by
  have ha := notifyClients_attempts S msg wf subs h
  refine ⟨ha, fun hn c hc => ?_⟩
  rw [ha]
  exact List.count_eq_one_of_mem hn hc

/-- Claim C9 witness: a two-listener room in which the first write fails and
the second listener is still attempted exactly once. -/
theorem c9_witness :
    lookupRoom (handleSubscribeRegister hubR "r" 1).subscribers msgR.roomID
      = some [0, 1] ∧
    (notifyClients (handleSubscribeRegister hubR "r" 1) msgR
        (fun c => c != 0)).2 = [0, 1] ∧
    ((notifyClients (handleSubscribeRegister hubR "r" 1) msgR
        (fun c => c != 0)).2).count 1 = 1 :=
  ⟨by decide,
    (c9_one_attempt_per_listener (handleSubscribeRegister hubR "r" 1) msgR
      (fun c => c != 0) [0, 1] (by decide)).1,
    (c9_one_attempt_per_listener (handleSubscribeRegister hubR "r" 1) msgR
      (fun c => c != 0) [0, 1] (by decide)).2 (by decide) 1 (by decide)⟩

/-- Claim C5, counterexample to the claim as stated: on the fresh hub (room
`"r"` has no key), register-then-unregister of connection `0` does not yield
a registry equal to the original state as a whole — the room key `"r"` has
been created and stays behind, mapped to the empty set. -/
theorem c5_register_unregister_creates_room_key :
    ¬ registeredAnywhere newHandlerState 0 ∧
    handleSubscribeCleanup (handleSubscribeRegister newHandlerState "r" 0) "r" 0
      ≠ newHandlerState ∧
    (handleSubscribeCleanup (handleSubscribeRegister newHandlerState "r" 0) "r" 0).subscribers
      = [("r", [])] := by
  decide

/-- Claim C5, amended: for a listener registered nowhere in `S`, Register
then immediately Unregister leaves the room's listener set unchanged; the
registry as a whole is restored to `S` exactly when room `R` already had an
entry, while an absent room key is created by Register and survives
Unregister, mapped to the empty set. -/
theorem c5_register_unregister_roundtrip (S : HubState) (r : RoomID) (c : Conn)
    (h : ¬ registeredAnywhere S c) :
    (∀ subs, lookupRoom S.subscribers r = some subs →
      handleSubscribeCleanup (handleSubscribeRegister S r c) r c = S) ∧
    (lookupRoom S.subscribers r = none →
      (handleSubscribeCleanup (handleSubscribeRegister S r c) r c).subscribers
        = S.subscribers ++ [(r, [])] ∧
      listenersOf (handleSubscribeCleanup (handleSubscribeRegister S r c) r c) r
        = listenersOf S r) := by
  constructor
  · intro subs hl
    have hc : c ∉ subs := fun hm => h ⟨(r, subs), lookupRoom_mem _ r subs hl, hm⟩
    unfold handleSubscribeCleanup handleSubscribeRegister
    cases S with
    | mk subscribers cancelled =>
      simp only
      rw [deleteConn_insertConn_of_some subscribers r c subs hl hc]
  · intro hl
    have hdel : (handleSubscribeCleanup (handleSubscribeRegister S r c) r c).subscribers
        = S.subscribers ++ [(r, [])] := by
      unfold handleSubscribeCleanup handleSubscribeRegister
      simp only
      exact deleteConn_insertConn_of_none S.subscribers r c hl
    refine ⟨hdel, ?_⟩
    unfold listenersOf
    rw [hdel, lookupRoom_append_of_none S.subscribers [(r, [])] r hl, hl]
    simp [lookupRoom]

/-- Claim C5 witness: the amended theorem applied to a hub whose room `"r"`
key exists and holds only connection `0`, with the fresh connection `1`. -/
theorem c5_witness :
    ¬ registeredAnywhere hubR 1 ∧
    lookupRoom hubR.subscribers "r" = some [0] ∧
    handleSubscribeCleanup (handleSubscribeRegister hubR "r" 1) "r" 1 = hubR :=
  ⟨by decide, by decide,
    (c5_register_unregister_roundtrip hubR "r" 1 (by decide)).1 [0] (by decide)⟩

/-- Claim C10, confirmed: `Unregister` removes only the connection — the
room's key stays in the registry, mapped to the erased set; when the last
listener was removed the key maps to the empty set, and a publish to that
room is then a complete no-op. -/
theorem c10_room_key_persists (S : HubState) (r : RoomID) (c : Conn)
    (subs : List Conn) (wf : Conn → Bool) (msg : Message)
    (h : lookupRoom S.subscribers r = some subs) (hm : msg.roomID = r) :
    lookupRoom (handleSubscribeCleanup S r c).subscribers r = some (subs.erase c) ∧
    (subs.erase c = [] →
      notifyClients (handleSubscribeCleanup S r c) msg wf
        = (handleSubscribeCleanup S r c, [])) := by
  have hl : lookupRoom (handleSubscribeCleanup S r c).subscribers r
      = some (subs.erase c) := by
    unfold handleSubscribeCleanup
    simp only [lookupRoom_deleteConn, h]
    rfl
  refine ⟨hl, fun he => ?_⟩
  apply notifyClients_no_subscribers
  rw [hm]
  right
  rw [hl, he]

/-- Claim C10 witness: unregistering the last listener of room `"r"` leaves
the key mapped to `[]`, and the next publish to `"r"` is a no-op. -/
theorem c10_witness :
    lookupRoom hubR.subscribers "r" = some [0] ∧ msgR.roomID = "r" ∧
    lookupRoom (handleSubscribeCleanup hubR "r" 0).subscribers "r" = some [] ∧
    notifyClients (handleSubscribeCleanup hubR "r" 0) msgR wfOk
      = (handleSubscribeCleanup hubR "r" 0, []) :=
  ⟨by decide, by decide,
    (c10_room_key_persists hubR "r" 0 [0] wfOk msgR (by decide) (by decide)).1,
    (c10_room_key_persists hubR "r" 0 [0] wfOk msgR (by decide) (by decide)).2
      (by decide)⟩

/-- Claim C2, counterexample to the claim as stated: in the trace of a
publish to room `"r"` with one listener whose write fails, the `WriteJSON`
step at position 2 happens while the mutex is held — `notifyClients` takes
`h.mu.Lock()` at entry and only releases it via `defer` after the delivery
loop, so the lock is held during the delivery attempt. -/
theorem c2_delivery_attempt_under_lock :
    (notifyClientsTrace hubR "r" wfFail).get? 2 = some (HubAction.write 0 false) ∧
    mutexHeldAt (notifyClientsTrace hubR "r" wfFail) 2 := by
  constructor
  · rfl
  · show (((notifyClientsTrace hubR "r" wfFail).take 2).count HubAction.unlock <
      ((notifyClientsTrace hubR "r" wfFail).take 2).count HubAction.lock)
    decide

/-- Claim C2, amended: the registry mutex is held around registry access
(register and unregister happen strictly between `Lock` and `Unlock`), and —
unlike the claim — it is also held during every individual delivery attempt:
every `WriteJSON` step of a `notifyClients` trace occurs with the mutex
held, because the lock is taken at entry and released only by the deferred
unlock at exit. -/
theorem c2_lock_held_for_entire_fanout :
    (∀ (S : HubState) (room : RoomID) (wf : Conn → Bool) (i : Nat) (c : Conn)
        (ok : Bool),
        (notifyClientsTrace S room wf).get? i = some (HubAction.write c ok) →
        mutexHeldAt (notifyClientsTrace S room wf) i) ∧
    (∀ (room : RoomID) (c : Conn),
        subscribeRegisterTrace room c
          = [HubAction.lock, HubAction.addConn room c, HubAction.unlock] ∧
        mutexHeldAt (subscribeRegisterTrace room c) 1 ∧
        subscribeCleanupTrace room c
          = [HubAction.lock, HubAction.removeConn room c, HubAction.unlock] ∧
        mutexHeldAt (subscribeCleanupTrace room c) 1) := by
  constructor
  · intro S room wf i c ok h
    unfold notifyClientsTrace at h
    match i with
    | 0 => simp at h
    | Nat.succ j =>
      rw [List.get?_cons_succ] at h
      have hlen : j < (notifyBody S room wf).length := by
        by_contra hge
        push_neg at hge
        rw [List.get?_eq_getElem?, List.getElem?_append_right hge] at h
        rcases Nat.lt_or_ge (j - (notifyBody S room wf).length) 1 with hj1 | hj1
        · interval_cases hj : (j - (notifyBody S room wf).length)
          · simp at h
        · rw [List.getElem?_eq_none (by simpa using hj1)] at h
          exact Option.noConfusion h
      unfold mutexHeldAt notifyClientsTrace
      rw [List.take_succ_cons, List.take_append_of_le_length (Nat.le_of_lt hlen)]
      have hsub : ((notifyBody S room wf).take j).Sublist (notifyBody S room wf) :=
        List.take_sublist j _
      have hnl : HubAction.lock ∉ (notifyBody S room wf).take j :=
        fun hm => (notifyBody_no_mutex S room wf).1 (hsub.subset hm)
      have hnu : HubAction.unlock ∉ (notifyBody S room wf).take j :=
        fun hm => (notifyBody_no_mutex S room wf).2 (hsub.subset hm)
      rw [List.count_cons_self, List.count_cons_of_ne (by simp),
        List.count_eq_zero_of_not_mem hnu]
      exact Nat.succ_pos _
  · intro room c
    refine ⟨rfl, ?_, rfl, ?_⟩ <;>
      (show (0 : Nat) < 1; exact Nat.zero_lt_one)

/-- Claim C2 witness: the amended theorem applied at the write step of a
concrete publish trace. -/
theorem c2_witness :
    (notifyClientsTrace hubR "r" wfOk).get? 2 = some (HubAction.write 0 true) ∧
    mutexHeldAt (notifyClientsTrace hubR "r" wfOk) 2 :=
  ⟨rfl, c2_lock_held_for_entire_fanout.1 hubR "r" wfOk 2 0 true rfl⟩

/-- Claim C3, confirmed: for each of the four mutating handlers, a failing
storage call (`InsertMessage`, `ReactToMessage`, `RemoveReactionFromMessage`,
`MarkMessageAsAnswered` returning an error) yields the generic 500 error
response and publishes nothing — the event handed to `notifyClients` is
`none` on that path. -/
theorem c3_storage_failure_publishes_nothing :
    ∀ (rr b rid : String),
      handleCreateRoomMessage (some rr) (some b) (.error ())
        = (.serverError "something went wrong", none) ∧
      handleReactToMessage (some rr) rid true (.error ())
        = (.serverError "something went wrong", none) ∧
      handleRemoveReactFromMessage (some rr) rid true (.error ())
        = (.serverError "something went wrong", none) ∧
      handleMarkMessageAsAnswered (some rr) rid true (.error ())
        = (.serverError "something went wrong", none) :=
  fun _ _ _ => ⟨rfl, rfl, rfl, rfl⟩

/-- Claim C7, confirmed: every event published by any of the four mutating
handlers serializes to `{kind, value}` with the kind/payload pairing of the
spec (`message_created → {id, message}`, the two reaction kinds → `{id,
count}`, `message_answered → {id}`), and the serialization of a `Message`
is independent of its room identifier (json tag `"-"`). -/
theorem c7_event_shape :
    ∀ (rr : Option RoomID) (bd : Option String) (rid : String) (valid : Bool)
      (ins : Except Unit String) (rea dec : Except Unit Int)
      (mk : Except Unit Unit) (k : String) (v : EventValue) (r1 r2 : RoomID),
      publishShapeOK (handleCreateRoomMessage rr bd ins).2 = true ∧
      publishShapeOK (handleReactToMessage rr rid valid rea).2 = true ∧
      publishShapeOK (handleRemoveReactFromMessage rr rid valid dec).2 = true ∧
      publishShapeOK (handleMarkMessageAsAnswered rr rid valid mk).2 = true ∧
      marshalMessage ⟨k, v, r1⟩ = marshalMessage ⟨k, v, r2⟩ := by
  intro rr bd rid valid ins rea dec mk k v r1 r2
  refine ⟨?_, ?_, ?_, ?_, rfl⟩
  · cases rr with
    | none => rfl
    | some rr =>
      cases bd with
      | none => rfl
      | some b =>
        cases ins with
        | error e => rfl
        | ok mid => rfl
  · cases rr with
    | none => rfl
    | some rr =>
      cases valid with
      | false => rfl
      | true =>
        cases rea with
        | error e => rfl
        | ok n => rfl
  · cases rr with
    | none => rfl
    | some rr =>
      cases valid with
      | false => rfl
      | true =>
        cases dec with
        | error e => rfl
        | ok n => rfl
  · cases rr with
    | none => rfl
    | some rr =>
      cases valid with
      | false => rfl
      | true =>
        cases mk with
        | error e => rfl
        | ok u => rfl

/-- Claim C8, counterexample to the claim as stated: with a store that has no
message `"m1"`, marking `"m1"` answered reports plain success (`200 OK`) —
and even publishes the `message_answered` event — rather than not-found: the
`:exec` UPDATE matches zero rows without error and the handler has no
not-found branch. -/
theorem c8_missing_message_reports_success :
    (∀ m ∈ db0, m.id ≠ "m1") ∧
    handleMarkMessageAsAnswered (some "room1") "m1" true
        (markMessageExecResult db0 "m1")
      = (.okStatus, some ⟨MessageKindMessageAnswered, .answered "m1", "room1"⟩) :=
  ⟨by decide, rfl⟩

/-- Claim C8, amended: the mark-answered operation does not distinguish
not-found from success — when the referenced message does not exist, the
UPDATE matches zero rows, the store is unchanged, the `:exec` storage call
returns no error, and the operation reports success (`200 OK`) and publishes
the `message_answered` event; only a storage failure produces an error
response. -/
theorem c8_mark_answered_no_not_found (db : List StoredMessage)
    (rid rr : String) (h : ∀ m ∈ db, m.id ≠ rid) :
    MarkMessageAsAnswered db rid = .ok db ∧
    handleMarkMessageAsAnswered (some rr) rid true (markMessageExecResult db rid)
      = (.okStatus, some ⟨MessageKindMessageAnswered, .answered rid, rr⟩) := by
  have h1 : MarkMessageAsAnswered db rid = .ok db := by
    unfold MarkMessageAsAnswered
    congr 1
    induction db with
    | nil => rfl
    | cons m rest ih =>
      have hm : m.id ≠ rid := h m (List.mem_cons_self _ _)
      simp only [List.map_cons, if_neg hm]
      rw [ih (fun x hx => h x (List.mem_cons_of_mem _ hx))]
  refine ⟨h1, ?_⟩
  unfold markMessageExecResult
  rw [h1]
  rfl

/-- Claim C8 witness: the amended theorem applied to the one-row store
missing message `"m1"`. -/
theorem c8_witness :
    (∀ m ∈ db0, m.id ≠ "m1") ∧
    MarkMessageAsAnswered db0 "m1" = .ok db0 ∧
    handleMarkMessageAsAnswered (some "room9") "m1" true
        (markMessageExecResult db0 "m1")
      = (.okStatus, some ⟨MessageKindMessageAnswered, .answered "m1", "room9"⟩) :=
  ⟨by decide,
    (c8_mark_answered_no_not_found db0 "m1" "room9" (by decide)).1,
    (c8_mark_answered_no_not_found db0 "m1" "room9" (by decide)).2⟩

end GoServer
